import Mathlib

/-!
Verification of the ayon-unreal integration code: the PySide pre-launch
install hook (`pre_pyside_install.py`) and the Alembic animation loader
(`load_alembic_animation.py`), shallowly embedded in Lean 4.

Python strings are modelled as `List Char` (`PyStr`) wherever the code
performs character-level operations (splitting, stripping, slicing);
plain `String` is used where only concatenation and comparison occur.
-/

/-- A Python string, modelled as its list of characters. -/
abbrev PyStr := List Char

/-- Python `s.split(sep)` for a one-character separator `sep`:
always returns at least one (possibly empty) piece, keeps empty pieces
between adjacent separators. -/
def pySplit (sep : Char) : PyStr → List PyStr
  | [] => [[]]
  | c :: cs =>
    let r := pySplit sep cs
    if c = sep then [] :: r
    else (c :: r.headD []) :: r.tail

/-- Python `s.strip()`: drop leading and trailing whitespace. -/
def pyStrip (s : PyStr) : PyStr :=
  ((s.dropWhile Char.isWhitespace).reverse.dropWhile Char.isWhitespace).reverse

/-- Python `s.lower()` (ASCII case folding, which is all pip output uses). -/
def pyLower (s : PyStr) : PyStr := s.map Char.toLower

/-- Python `sep.join(parts)` for a one-character separator. -/
def pyJoin (sep : Char) (parts : List PyStr) : PyStr :=
  List.intercalate [sep] parts

/-- `InstallQtBinding.is_pyside_installed`, the part after the subprocess
call: `lines` is the decoded `pip list` stdout already split on the line
separator.  The second line's first space-separated token gives the
package-name column width; every line from the third onward (empty lines
skipped) is truncated to that width, stripped, lower-cased and compared
with the lower-cased `pyside_name`. -/
def is_pyside_installed (lines : List PyStr) (pyside_name : PyStr) : Bool :=
  (lines.drop 2).any (fun line =>
    !line.isEmpty &&
      (pyLower (pyStrip
          (List.take ((pySplit ' ' (lines.getD 1 [])).headD []).length line)) ==
        pyLower pyside_name))

theorem pySplit_headD (sep : Char) (s : PyStr) :
    (pySplit sep s).headD [] = s.takeWhile (fun c => c != sep) := by
  induction s with
  | nil => rfl
  | cons c cs ih =>
    by_cases h : c = sep
    · subst h
      simp [pySplit, List.takeWhile_cons]
    · simp [pySplit, h, List.takeWhile_cons] at ih ⊢
      exact ih

theorem takeWhile_replicate_dash (k : Nat) (rest : PyStr)
    (h2 : rest = [] ∨ ∃ t, rest = ' ' :: t) :
    (List.replicate k '-' ++ rest).takeWhile (fun c => c != ' ')
      = List.replicate k '-' := by
  induction k with
  | zero =>
    rcases h2 with h | ⟨t, h⟩ <;> subst h <;> simp [List.takeWhile_cons]
  | succ n ih =>
    simp only [List.replicate_succ, List.cons_append, List.takeWhile_cons]
    simp [ih]

theorem pyLower_eq_nil_iff (s : PyStr) : pyLower s = [] ↔ s = [] := by
  simp [pyLower]

/-- C1: `is_pyside_installed` parses the column-aligned `pip list` output
positionally: when the second line starts with a run of `k` dashes followed
by a space (or end of line), it returns `true` iff some line from the third
onward, truncated to width `k` and stripped of whitespace, equals the
(nonempty) `pyside_name` case-insensitively. -/
theorem pip_list_parse_iff (lines : List PyStr) (pyside : PyStr) (k : Nat)
    (rest : PyStr)
    (h1 : lines.getD 1 [] = List.replicate k '-' ++ rest)
    (h2 : rest = [] ∨ ∃ t, rest = ' ' :: t)
    (hp : pyside ≠ []) :
    is_pyside_installed lines pyside = true ↔
      ∃ line ∈ lines.drop 2,
        pyLower (pyStrip (List.take k line)) = pyLower pyside := by
  unfold is_pyside_installed
  rw [h1, pySplit_headD, takeWhile_replicate_dash k rest h2,
    List.length_replicate, List.any_eq_true]
  constructor
  · rintro ⟨line, hm, hl⟩
    rw [Bool.and_eq_true, beq_iff_eq] at hl
    exact ⟨line, hm, hl.2⟩
  · rintro ⟨line, hm, hl⟩
    refine ⟨line, hm, ?_⟩
    have hne : line ≠ [] := by
      intro h
      subst h
      simp only [List.take_nil, pyStrip, List.dropWhile_nil,
        List.reverse_nil, pyLower, List.map_nil] at hl
      exact hp ((pyLower_eq_nil_iff pyside).mp hl.symm)
    rw [Bool.and_eq_true, beq_iff_eq]
    exact ⟨by simp [hne], hl⟩

/-- Witness for C1 on a concrete four-line `pip list` output. -/
theorem pip_list_parse_iff_witness :
    is_pyside_installed
      ["Package    Version".data, "---------- -------".data,
        "numpy      1.26.0".data, "PySide2    5.15.2".data]
      "PySide2".data = true :=
  (pip_list_parse_iff
      ["Package    Version".data, "---------- -------".data,
        "numpy      1.26.0".data, "PySide2    5.15.2".data]
      "PySide2".data 10 " -------".data
      (by decide) (Or.inr ⟨"-------".data, by decide⟩) (by decide)).mpr
    ⟨"PySide2    5.15.2".data, by decide, by decide⟩

/-- The downward scan of `InstallQtBinding.find_parent_directory`
(`for i in range(len(path_components) - 1, -1, -1)`); the counter is one
past the next index to inspect. -/
def fpdLoop (sep : Char) (comps : List PyStr) (target : PyStr) :
    Nat → Option PyStr
  | 0 => none
  | i + 1 =>
    if comps.getD i [] = target then some (pyJoin sep (comps.take (i + 1)))
    else fpdLoop sep comps target i

/-- `InstallQtBinding.find_parent_directory`: split the path on `os.sep`,
scan the components from the end for `target_dir` (default `"Binaries"`),
and rejoin the components up to and including the hit; `none` when no
component matches. -/
def find_parent_directory (sep : Char) (file_path : PyStr)
    (target_dir : PyStr := "Binaries".data) : Option PyStr :=
  fpdLoop sep (pySplit sep file_path) target_dir
    (pySplit sep file_path).length

theorem fpdLoop_eq_none (sep : Char) (comps : List PyStr) (target : PyStr)
    (n : Nat) (h : ∀ j, j < n → comps.getD j [] ≠ target) :
    fpdLoop sep comps target n = none := by
  induction n with
  | zero => rfl
  | succ m ih =>
    unfold fpdLoop
    rw [if_neg (h m (Nat.lt_succ_self m))]
    exact ih (fun j hj => h j (hj.trans (Nat.lt_succ_self m)))

theorem fpdLoop_eq_some (sep : Char) (comps : List PyStr) (target : PyStr)
    (n i : Nat) (hi : i < n) (ht : comps.getD i [] = target)
    (hlast : ∀ j, i < j → j < n → comps.getD j [] ≠ target) :
    fpdLoop sep comps target n = some (pyJoin sep (comps.take (i + 1))) := by
  induction n with
  | zero => omega
  | succ m ih =>
    unfold fpdLoop
    by_cases h : i = m
    · subst h
      rw [if_pos ht]
    · have him : i < m := by omega
      rw [if_neg (hlast m him (Nat.lt_succ_self m))]
      exact ih him (fun j hj hjm => hlast j hj (hjm.trans (Nat.lt_succ_self m)))

/-- C2: `find_parent_directory` returns the `os.sep`-joined prefix of the
path's components up to and including the last component equal to
`"Binaries"`, and `none` when no component equals `"Binaries"`. -/
theorem find_parent_directory_spec (sep : Char) (p : PyStr) :
    ((∀ c ∈ pySplit sep p, c ≠ "Binaries".data) →
        find_parent_directory sep p = none) ∧
    (∀ i, (hi : i < (pySplit sep p).length) →
        (pySplit sep p).get ⟨i, hi⟩ = "Binaries".data →
        (∀ j, i < j → j < (pySplit sep p).length →
            (pySplit sep p).getD j [] ≠ "Binaries".data) →
        find_parent_directory sep p
          = some (pyJoin sep ((pySplit sep p).take (i + 1)))) := by
  constructor
  · intro hall
    refine fpdLoop_eq_none sep _ _ _ (fun j hj => ?_)
    rw [List.getD_eq_getElem _ _ hj]
    exact hall _ (List.getElem_mem hj)
  · intro i hi hget hlast
    refine fpdLoop_eq_some sep _ _ _ i hi ?_ hlast
    rw [List.getD_eq_getElem _ _ hi]
    exact hget

/-- Witness for C2 on the concrete path `/x/Binaries/y`. -/
theorem find_parent_directory_spec_witness :
    find_parent_directory '/' "/x/Binaries/y".data = some "/x/Binaries".data := by
  have h := (find_parent_directory_spec '/' "/x/Binaries/y".data).2 2
    (by decide) (by decide)
    (fun j hj hlen => by
      have hl : (pySplit '/' "/x/Binaries/y".data).length = 4 := by decide
      rw [hl] at hlen
      have hj3 : j = 3 := by omega
      subst hj3
      decide)
  rw [h]
  decide

/-- The `prelaunch_settings` dictionary, reduced to the two keys the hook
reads.  A missing `"use_dependency"` key and a falsy value coincide
(`settings.get` returns `None`, which is falsy); an absent or empty
`"dependency_path"` is the empty string. -/
structure PrelaunchSettings where
  use_dependency : Bool
  dependency_path : String

/-- `InstallQtBinding.use_dependency_path`: extend the command list with
`--no-index --find-links=<path>` when `use_dependency` is truthy and a
dependency path is filled in; otherwise (including the truthy-but-empty
case, which only logs a warning) return the commands unchanged. -/
def use_dependency_path (commands : List String)
    (settings : PrelaunchSettings) : List String :=
  if settings.use_dependency then
    if settings.dependency_path ≠ "" then
      commands ++ ["--no-index", "--find-links=" ++ settings.dependency_path]
    else
      commands
  else
    commands

/-- The argument list built by `InstallQtBinding.install_pyside` before the
subprocess call: `<python> -m pip install --ignore-installed <package>`,
then `use_dependency_path`. -/
def install_pyside_args (python_executable pyside_name : String)
    (settings : PrelaunchSettings) : List String :=
  use_dependency_path
    [python_executable, "-m", "pip", "install", "--ignore-installed",
      pyside_name]
    settings

/-- C3: the install command is exactly
`<python> -m pip install --ignore-installed <package>`, extended with
exactly `--no-index` and `--find-links=<path>` iff `use_dependency` is
truthy and `dependency_path` is non-empty; with `use_dependency` truthy but
`dependency_path` empty the list is returned unchanged. -/
theorem install_pyside_args_spec (py pyside : String)
    (s : PrelaunchSettings) :
    (install_pyside_args py pyside s
        = [py, "-m", "pip", "install", "--ignore-installed", pyside]
            ++ ["--no-index", "--find-links=" ++ s.dependency_path]
      ↔ s.use_dependency = true ∧ s.dependency_path ≠ "") ∧
    (s.use_dependency = true → s.dependency_path = "" →
      install_pyside_args py pyside s
        = [py, "-m", "pip", "install", "--ignore-installed", pyside]) ∧
    (s.use_dependency = false →
      install_pyside_args py pyside s
        = [py, "-m", "pip", "install", "--ignore-installed", pyside]) := by
  unfold install_pyside_args use_dependency_path
  refine ⟨?_, ?_, ?_⟩
  · constructor
    · intro h
      by_cases hu : s.use_dependency
      · by_cases hd : s.dependency_path = ""
        · rw [if_pos hu, if_neg (by simp [hd])] at h
          have := congrArg List.length h
          simp at this
        · exact ⟨hu, hd⟩
      · rw [if_neg hu] at h
        have := congrArg List.length h
        simp at this
    · rintro ⟨hu, hd⟩
      rw [if_pos hu, if_pos hd]
  · intro hu hd
    rw [if_pos hu, if_neg (by simp [hd])]
  · intro hu
    rw [if_neg (by simp [hu])]

/-- Witness for C3 with dependency settings filled in. -/
theorem install_pyside_args_spec_witness :
    install_pyside_args "python" "PySide2" ⟨true, "dep"⟩
      = ["python", "-m", "pip", "install", "--ignore-installed", "PySide2",
          "--no-index", "--find-links=dep"] := by
  have h := (install_pyside_args_spec "python" "PySide2" ⟨true, "dep"⟩).1.mpr
    ⟨rfl, by decide⟩
  simpa using h

/-- The module-level constant `python_versions = {7, 8, 9, 10, 11, 12, 13}`
(small-integer set iteration order is ascending). -/
def python_versions : List Nat := [7, 8, 9, 10, 11, 12, 13]

/-- The module-level constant `MAX_PYSIDE2_PYTHON_VERSION = 10`. -/
def MAX_PYSIDE2_PYTHON_VERSION : Nat := 10

/-- The Qt-binding choice in `InstallQtBinding._execute`:
`pyside_name = "PySide6"`, overridden to `"PySide2"` when
`py_version <= MAX_PYSIDE2_PYTHON_VERSION`. -/
def pyside_name_for (py_version : Nat) : String :=
  if py_version ≤ MAX_PYSIDE2_PYTHON_VERSION then "PySide2" else "PySide6"

/-- C9: the chosen Qt binding package is `"PySide2"` iff the discovered
embedded python minor version (drawn from `python_versions`) is at most 10,
and `"PySide6"` for every larger discovered version. -/
theorem pyside_name_for_spec :
    ∀ v ∈ python_versions,
      (pyside_name_for v = "PySide2" ↔ v ≤ 10) ∧
      (10 < v → pyside_name_for v = "PySide6") := by
  decide

/-- Witness for C9 at discovered minor version 11. -/
theorem pyside_name_for_spec_witness :
    pyside_name_for 11 = "PySide6" :=
  (pyside_name_for_spec 11 (by decide)).2 (by decide)

/-- `subprocess.list2cmdline`: does an argument need surrounding quotes
(contains a space or tab, or is empty)? -/
def needquote (arg : List Char) : Bool :=
  arg.contains ' ' || arg.contains '\t' || arg.isEmpty

/-- The per-character loop of `subprocess.list2cmdline` with its pending
backslash buffer `bs`; at the end of the argument the buffered backslashes
are emitted, doubled when the argument is being quoted. -/
def cmdEscape (nq : Bool) : List Char → Nat → List Char
  | [], bs =>
    List.replicate bs '\\'
      ++ (if nq then List.replicate bs '\\' ++ ['"'] else [])
  | c :: cs, bs =>
    if c = '\\' then cmdEscape nq cs (bs + 1)
    else if c = '"' then
      List.replicate (2 * bs) '\\' ++ '\\' :: '"' :: cmdEscape nq cs 0
    else List.replicate bs '\\' ++ c :: cmdEscape nq cs 0

/-- One argument as rendered by `subprocess.list2cmdline`. -/
def renderArg (arg : List Char) : List Char :=
  (if needquote arg then ['"'] else []) ++ cmdEscape (needquote arg) arg 0

/-- `subprocess.list2cmdline`: rendered arguments joined by single
spaces. -/
def list2cmdline : List (List Char) → List Char
  | [] => []
  | [a] => renderArg a
  | a :: b :: rest => renderArg a ++ ' ' :: list2cmdline (b :: rest)

/-- Python `s.lstrip(chars)`: drop leading characters that are members of
the character set `chars`. -/
def pyLstripSet (chars s : List Char) : List Char :=
  s.dropWhile (fun c => chars.contains c)

/-- The `lpParameters` string built by
`InstallQtBinding.install_pyside_windows`:
`subprocess.list2cmdline(args).lstrip(fake_exe).lstrip(" ")` where `args`
is `["fake.exe", "-m", "pip", "install", "--ignore-installed",
pyside_name]` run through `use_dependency_path`. -/
def install_pyside_windows_parameters (pyside_name : String)
    (settings : PrelaunchSettings) : List Char :=
  pyLstripSet [' ']
    (pyLstripSet "fake.exe".data
      (list2cmdline ((use_dependency_path
        ["fake.exe", "-m", "pip", "install", "--ignore-installed",
          pyside_name] settings).map String.data)))

theorem use_dependency_path_cons (a : String) (rest : List String)
    (s : PrelaunchSettings) :
    use_dependency_path (a :: rest) s = a :: use_dependency_path rest s := by
  unfold use_dependency_path
  split_ifs <;> simp

theorem list2cmdline_fake_strip (xs : List String) :
    pyLstripSet [' '] (pyLstripSet "fake.exe".data
      (list2cmdline (("fake.exe" :: "-m" :: xs).map String.data)))
      = list2cmdline (("-m" :: xs).map String.data) := by
  cases xs with
  | nil => rfl
  | cons y ys => rfl

/-- C4: on Windows the elevated `runas` invocation receives as parameter
string exactly the `list2cmdline` rendering of
`["-m", "pip", "install", "--ignore-installed", <pyside_name>]` plus any
dependency flags — i.e. the rendering of the full argument list with the
placeholder `"fake.exe"` and the following space fully removed from the
front. -/
theorem install_pyside_windows_parameters_spec (pyside : String)
    (s : PrelaunchSettings) :
    install_pyside_windows_parameters pyside s
      = list2cmdline ((use_dependency_path
          ["-m", "pip", "install", "--ignore-installed", pyside] s).map
            String.data) := by
  unfold install_pyside_windows_parameters
  rw [use_dependency_path_cons "fake.exe"
    ["-m", "pip", "install", "--ignore-installed", pyside] s]
  rw [use_dependency_path_cons "-m"
    ["pip", "install", "--ignore-installed", pyside] s]
  exact list2cmdline_fake_strip _

/-- The Python exceptions relevant to the modelled operations. -/
inductive PyError
  | indexError
  deriving DecidableEq

/-- The decoded `pip list` stdout split on the line separator
(`stdout.decode().split(os.linesep)`, POSIX line separator). -/
def pip_list_lines (stdout : PyStr) : List PyStr := pySplit '\n' stdout

/-- `InstallQtBinding.is_pyside_installed` as actually run on raw stdout:
the body contains no exception handler, and the subscript `lines[1]`
raises `IndexError` whenever the split output has fewer than two lines. -/
def is_pyside_installed_run (stdout pyside_name : PyStr) :
    Except PyError Bool :=
  if 2 ≤ (pip_list_lines stdout).length then
    Except.ok (is_pyside_installed (pip_list_lines stdout) pyside_name)
  else
    Except.error PyError.indexError

/-- `InstallQtBinding.execute`: the body `self._execute()` is wrapped in a
bare `try/except Exception` that logs a warning with `exc_info` and
returns `None` — so `execute` itself always returns normally. -/
def execute_outcome : Except PyError Unit → Except PyError Unit
  | Except.ok _ => Except.ok ()
  | Except.error _ => Except.ok ()

/-- Counterexample to C5: `is_pyside_installed` does not catch its own
exceptions — on empty pip output (`lines = [""]`) the subscript `lines[1]`
raises `IndexError`, which propagates out of the operation. -/
theorem is_pyside_installed_run_raises :
    is_pyside_installed_run [] "PySide2".data
      = Except.error PyError.indexError := by
  rfl

/-- C5 (amended): only the hook entry point `execute` follows the
catch-broadly-log-and-return pattern, returning normally whatever its body
raised; `is_pyside_installed` (and the loader operations) contain no
handler, so their exceptions propagate to their callers — e.g.
`IndexError` on pip output with fewer than two lines. -/
theorem execute_catches_broadly :
    (∀ body : Except PyError Unit, execute_outcome body = Except.ok ()) ∧
      is_pyside_installed_run [] "PySide2".data
        = Except.error PyError.indexError := by
  constructor
  · intro body
    cases body <;> rfl
  · rfl

/-- The environment a run of `InstallQtBinding._execute` observes: each
field abstracts one host/filesystem probe made by the hook body. -/
structure ExecEnv where
  executable_matches : Bool
  python_dir_found : Bool
  python_exe_exists : Bool
  platform_windows : Bool
  pyside_installed : Bool
  install_success : Bool

/-- The observable actions of one `InstallQtBinding._execute` run. -/
inductive HookAction
  | logInfo
  | logWarning
  | logDebug
  | check_installed
  | install_windows
  | install_posix
  deriving DecidableEq

/-- The control flow of `InstallQtBinding._execute` as the list of actions
it performs: early returns on a wrong executable name, a missing python
directory or a missing python executable; otherwise one presence check,
then — only when the binding is absent — one platform-dispatched install
followed by one result log. -/
def execute_trace (env : ExecEnv) : List HookAction :=
  if !env.executable_matches then [HookAction.logInfo]
  else if !env.python_dir_found then [HookAction.logWarning]
  else if !env.python_exe_exists then [HookAction.logWarning]
  else
    HookAction.check_installed ::
      (if env.pyside_installed then [HookAction.logDebug]
       else
        (if env.platform_windows then [HookAction.install_windows]
         else [HookAction.install_posix])
          ++ (if env.install_success then [HookAction.logInfo]
              else [HookAction.logWarning]))

/-- Is the action an install attempt? -/
def isInstall : HookAction → Bool
  | HookAction.install_windows => true
  | HookAction.install_posix => true
  | _ => false

/-- C6: in every run of the hook an install is attempted at most once, and
never when the presence check reported the binding installed; when the
single install fails the run just logs a warning (no second install
appears in the trace). -/
theorem execute_trace_install_once (env : ExecEnv) :
    ((execute_trace env).countP isInstall ≤ 1) ∧
      (env.pyside_installed = true →
        (execute_trace env).countP isInstall = 0) ∧
      (env.install_success = false →
        (execute_trace env).countP isInstall ≤ 1) := by
  rcases env with ⟨a, b, c, d, e, f⟩
  cases a <;> cases b <;> cases c <;> cases d <;> cases e <;> cases f <;>
    decide

/-- Witness for C6 with the binding already installed. -/
theorem execute_trace_install_once_witness :
    (execute_trace ⟨true, true, true, true, true, true⟩).countP isInstall
      = 0 :=
  (execute_trace_install_once ⟨true, true, true, true, true, true⟩).2.1 rfl

/-- Decimal digit accumulation with explicit fuel (the fuel `n` itself is
always enough, since a positive number has no more digits than its
value). -/
def natDecimalAux : Nat → Nat → List Char → List Char
  | 0, _, acc => acc
  | fuel + 1, n, acc =>
    if n = 0 then acc
    else natDecimalAux fuel (n / 10) (Nat.digitChar (n % 10) :: acc)

/-- The decimal rendering of a non-negative integer, as Python prints
it. -/
def natDecimal (n : Nat) : List Char :=
  if n = 0 then ['0'] else natDecimalAux n n []

/-- Python `f"{n:03d}"` for `n >= 0`: the decimal digits, left-padded with
zeros to a minimum width of three. -/
def pyFormat03d (n : Nat) : String :=
  String.mk (List.replicate (3 - (natDecimal n).length) '0' ++ natDecimal n)

/-- The version component of the asset directory in
`AnimationAlembicLoader.load`: `f"{name}_hero"` for a negative (hero)
version, else `f"{name}_v{version:03d}"`. -/
def name_version (name : String) (version : Int) : String :=
  if version < 0 then name ++ "_hero"
  else name ++ "_v" ++ pyFormat03d version.toNat

/-- Counterexample to C8: at version 1000 the rendered component is
`name_v1000` — four digits, not a pad of exactly three digits (which would
make the string one character shorter). -/
theorem name_version_not_exactly_three :
    name_version "name" 1000 = "name_v1000" ∧
      (name_version "name" 1000).length ≠ "name".length + 2 + 3 := by
  constructor
  · decide
  · decide

set_option maxRecDepth 4000 in
theorem natDecimal_length_le_three :
    ∀ m : Fin 1000, (natDecimal m.val).length ≤ 3 := by
  decide

/-- C8 (amended): the version component is `<name>_hero` for every context
version strictly less than 0, and `<name>_v<version>` with the version
zero-padded to at least three digits (exactly three whenever the version
is at most 999) for every version at least 0. -/
theorem name_version_spec (name : String) (v : Int) :
    (v < 0 → name_version name v = name ++ "_hero") ∧
    (0 ≤ v →
      name_version name v = name ++ "_v" ++ pyFormat03d v.toNat ∧
      3 ≤ (pyFormat03d v.toNat).length ∧
      (v ≤ 999 → (pyFormat03d v.toNat).length = 3)) := by
  constructor
  · intro hv
    unfold name_version
    rw [if_pos hv]
  · intro hv
    refine ⟨?_, ?_, ?_⟩
    · unfold name_version
      rw [if_neg (by omega)]
    · show (String.mk _).length ≥ 3
      simp only [String.length, pyFormat03d, List.length_append,
        List.length_replicate]
      omega
    · intro hv999
      have hle : (natDecimal v.toNat).length ≤ 3 := by
        have hm : v.toNat < 1000 := by omega
        exact natDecimal_length_le_three ⟨v.toNat, hm⟩
      show (String.mk _).length = 3
      simp only [String.length, pyFormat03d, List.length_append,
        List.length_replicate]
      omega

/-- Witness for C8 (amended) at name `seq`, version 12. -/
theorem name_version_spec_witness :
    name_version "seq" 12 = "seq" ++ "_v" ++ pyFormat03d (Int.toNat 12) ∧
      (pyFormat03d (Int.toNat 12)).length = 3 := by
  have h := (name_version_spec "seq" 12).2 (by decide)
  exact ⟨h.1, h.2.2 (by decide)⟩

/-- The parts of the loader `context` dictionary that
`AnimationAlembicLoader.load` reads when building the container record. -/
structure LoadContext where
  folder_name : String
  folder_path : String
  product_type : String
  representation_id : String
  representation_versionId : String

/-- The `data` dictionary built by `AnimationAlembicLoader.load`
(insertion-ordered, as a Python dict literal); `ayon_container_id` stands
for the external pipeline constant `AYON_CONTAINER_ID`, and `asset_dir` /
`container_name` for the values produced by the engine's
`create_unique_asset_name` plus the `_CON` suffix. -/
def load_container_data (ayon_container_id : String) (ctx : LoadContext)
    (name asset_dir container_name : String) : List (String × String) :=
  let asset_name :=
    if ctx.folder_name ≠ "" then ctx.folder_name ++ "_" ++ name else name
  [("schema", "ayon:container-2.0"),
   ("id", ayon_container_id),
   ("folder_path", ctx.folder_path),
   ("namespace", asset_dir),
   ("container_name", container_name),
   ("asset_name", asset_name),
   ("loader", "AnimationAlembicLoader"),
   ("representation", ctx.representation_id),
   ("parent", ctx.representation_versionId),
   ("product_type", ctx.product_type),
   ("asset", ctx.folder_path),
   ("family", ctx.product_type)]

/-- The `unreal_pipeline.imprint` call in `AnimationAlembicLoader.load`:
target path `f"{asset_dir}/{container_name}"`, payload the `data` record
verbatim. -/
def load_imprint_call (ayon_container_id : String) (ctx : LoadContext)
    (name asset_dir container_name : String) :
    String × List (String × String) :=
  (asset_dir ++ "/" ++ container_name,
    load_container_data ayon_container_id ctx name asset_dir container_name)

/-- C7: the record imprinted on the container has exactly the flat key set
`{schema, id, folder_path, namespace, container_name, asset_name, loader,
representation, parent, product_type, asset, family}` in that insertion
order, with `schema = "ayon:container-2.0"`, `id` the pipeline container id
constant, `representation` the representation's id, `parent` the
representation's versionId, and `product_type` and `family` both the
context's productType; the record is passed verbatim to `imprint`. -/
theorem load_container_data_spec (cid : String) (ctx : LoadContext)
    (name asset_dir container_name : String) :
    (load_container_data cid ctx name asset_dir container_name).map
        Prod.fst
      = ["schema", "id", "folder_path", "namespace", "container_name",
          "asset_name", "loader", "representation", "parent",
          "product_type", "asset", "family"] ∧
    List.lookup "schema"
        (load_container_data cid ctx name asset_dir container_name)
      = some "ayon:container-2.0" ∧
    List.lookup "id"
        (load_container_data cid ctx name asset_dir container_name)
      = some cid ∧
    List.lookup "representation"
        (load_container_data cid ctx name asset_dir container_name)
      = some ctx.representation_id ∧
    List.lookup "parent"
        (load_container_data cid ctx name asset_dir container_name)
      = some ctx.representation_versionId ∧
    List.lookup "product_type"
        (load_container_data cid ctx name asset_dir container_name)
      = some ctx.product_type ∧
    List.lookup "family"
        (load_container_data cid ctx name asset_dir container_name)
      = some ctx.product_type ∧
    load_imprint_call cid ctx name asset_dir container_name
      = (asset_dir ++ "/" ++ container_name,
          load_container_data cid ctx name asset_dir container_name) := by
  refine ⟨rfl, rfl, rfl, rfl, rfl, rfl, rfl, rfl⟩

/-- Last index of `c` in the string, if any (Python `s.rfind(c)` for a
found character). -/
def py_rfind_aux (c : Char) : List Char → Option Nat
  | [] => none
  | x :: xs =>
    match py_rfind_aux c xs with
    | some i => some (i + 1)
    | none => if x = c then some 0 else none

/-- `posixpath.dirname` (Unreal content paths are `/`-separated):
`i = p.rfind('/') + 1; head = p[:i]`, then strip trailing slashes unless
`head` is empty or all slashes. -/
def py_dirname (p : PyStr) : PyStr :=
  let i := match py_rfind_aux '/' p with
    | some j => j + 1
    | none => 0
  let head := p.take i
  if head ≠ [] ∧ head ≠ List.replicate head.length '/' then
    (head.reverse.dropWhile (fun c => c == '/')).reverse
  else head

/-- The engine-side asset library observed by
`AnimationAlembicLoader.remove`: the existing content directories and the
assets each directory directly contains. -/
structure AssetLib where
  dirs : List PyStr
  assets : List (PyStr × PyStr)

/-- Is `d` the directory `root` itself or inside its subtree? -/
def inSubtree (root d : PyStr) : Bool :=
  d == root || (root ++ ['/']).isPrefixOf d

/-- `unreal.EditorAssetLibrary.delete_directory p`: removes the directory
and everything inside it. -/
def delete_directory (lib : AssetLib) (p : PyStr) : AssetLib :=
  { dirs := lib.dirs.filter (fun d => !(inSubtree p d)),
    assets := lib.assets.filter (fun a => !(inSubtree p a.1)) }

/-- `unreal.EditorAssetLibrary.list_assets(p, recursive=False)`:
the assets directly inside `p`. -/
def list_assets_nonrec (lib : AssetLib) (p : PyStr) : List PyStr :=
  (lib.assets.filter (fun a => a.1 == p)).map Prod.snd

/-- `AnimationAlembicLoader.remove` (locals inlined): delete the
container's namespace directory, then delete the parent directory as well
iff a non-recursive listing of the parent is now empty. -/
def remove (lib : AssetLib) (container_namespace : PyStr) : AssetLib :=
  if (list_assets_nonrec (delete_directory lib container_namespace)
        (py_dirname container_namespace)).length = 0 then
    delete_directory (delete_directory lib container_namespace)
      (py_dirname container_namespace)
  else delete_directory lib container_namespace

/-- C10: `remove` deletes exactly the container's namespace directory
(with its subtree), and additionally deletes the parent directory iff the
non-recursive listing of the parent after the first deletion is empty; a
parent that still lists at least one asset is left in place. -/
theorem remove_spec (lib : AssetLib) (ns : PyStr) :
    (list_assets_nonrec (delete_directory lib ns) (py_dirname ns) ≠ [] →
      remove lib ns = delete_directory lib ns ∧
      (∀ d ∈ lib.dirs,
        (d ∈ (remove lib ns).dirs ↔ inSubtree ns d = false)) ∧
      (py_dirname ns ∈ lib.dirs → inSubtree ns (py_dirname ns) = false →
        py_dirname ns ∈ (remove lib ns).dirs)) ∧
    (list_assets_nonrec (delete_directory lib ns) (py_dirname ns) = [] →
      remove lib ns
        = delete_directory (delete_directory lib ns) (py_dirname ns)) := by
  constructor
  · intro hne
    have hcond :
        ¬ ((list_assets_nonrec (delete_directory lib ns)
              (py_dirname ns)).length = 0) := by
      simpa [List.length_eq_zero] using hne
    have heq : remove lib ns = delete_directory lib ns := by
      unfold remove
      rw [if_neg hcond]
    refine ⟨heq, ?_, ?_⟩
    · intro d hd
      rw [heq]
      simp [delete_directory, List.mem_filter, hd]
    · intro hpar hfalse
      rw [heq]
      simp [delete_directory, List.mem_filter, hpar, hfalse]
  · intro he
    unfold remove
    rw [if_pos (by simp [he])]

/-- A concrete asset library for the C10 witness: `/a` holds one loose
asset plus the containers `/a/b` and `/a/c`. -/
def witnessLib : AssetLib :=
  ⟨["/a".data, "/a/b".data, "/a/c".data], [("/a".data, "x".data)]⟩

/-- Witness for C10: removing `/a/b` leaves the parent `/a` (which still
lists the asset `x`) in place. -/
theorem remove_spec_witness :
    remove witnessLib "/a/b".data = delete_directory witnessLib "/a/b".data ∧
      py_dirname "/a/b".data ∈ (remove witnessLib "/a/b".data).dirs := by
  have h := (remove_spec witnessLib "/a/b".data).1 (by decide)
  exact ⟨h.1, h.2.2 (by decide) (by decide)⟩
